import Mathlib

/-!
# follow_planner: the planning orchestrator

A shallow embedding of `follow_planner::FollowPlanner` as it is written in the two
translation units of the repository:

* `src/src/follow_planner.cpp`: the complete orchestrator (namespace `Core` below);
* `src/follow_planner/src/follow_planner.cpp`: the cut-down variant that keeps the
  guards and the extraction call only (namespace `Skeleton` below).

Conventions of the embedding.

* `double` and `float` values are carried as rationals. The orchestrator only copies
  them and casts an `unsigned int` cell coordinate to `double`; it performs no
  floating-point arithmetic of its own.
* `unsigned int` and `int` sizes are natural numbers (grid sizes are taken to fit the
  machine types).
* Every call that leaves `makePlan` (logging, the costmap, the expander, the path
  maker, the publishers, the clock) is recorded as an `Event`, in program order, so
  that "is invoked", "is not invoked" and "before" are statements about the trace.
* Collaborators that are not part of the translation units (tf, the parameter
  server, `costmap_2d`, the expander and traceback classes) are the fields of an
  environment record `Env`; they are functions of the arguments and of the members
  they are handed.
* The mutex taken at the top of `makePlan` has no counterpart: one call is one
  function application.
-/

set_option linter.unusedVariables false

namespace follow_planner

/-! ## Messages -/

/-- A `ros::Time` reading. -/
abbrev Time := Nat

/-- The `std_msgs/Header` of a stamped message. -/
structure Header where
  seq : Nat
  stamp : Time
  frame_id : String
deriving DecidableEq, Repr

/-- A `geometry_msgs/Point`. -/
structure Point where
  x : ℚ
  y : ℚ
  z : ℚ
deriving DecidableEq, Repr

/-- A `geometry_msgs/Quaternion`. -/
structure Quaternion where
  x : ℚ
  y : ℚ
  z : ℚ
  w : ℚ
deriving DecidableEq, Repr

/-- A `geometry_msgs/Pose`. -/
structure Pose where
  position : Point
  orientation : Quaternion
deriving DecidableEq, Repr

/-- A `geometry_msgs/PoseStamped`. -/
structure PoseStamped where
  header : Header
  pose : Pose
deriving DecidableEq, Repr

/-- A `nav_msgs/Path`. -/
structure Path where
  header : Header
  poses : List PoseStamped
deriving DecidableEq, Repr

/-- The header of a default-constructed message. -/
def Header.empty : Header := { seq := 0, stamp := 0, frame_id := "" }

/-! ## Grid data -/

/-- The `unsigned char*` cost array of a costmap, by row-major linear index. -/
abbrev CharMap := Nat → Nat

/-- The `float*` potential array. -/
abbrev Potential := List ℚ

/-- The geometry of a `costmap_2d::Costmap2D`: everything but the cost bytes. -/
structure MapInfo where
  size_x : Nat
  size_y : Nat
  origin_x : ℚ
  origin_y : ℚ
  resolution : ℚ
deriving DecidableEq, Repr

/-- The `costmap_2d::Costmap2D` the planner points to. -/
structure Costmap2D where
  info : MapInfo
  costmap_ : CharMap

/-- The accessor `Costmap2D::getSizeInCellsX`. -/
def Costmap2D.getSizeInCellsX (c : Costmap2D) : Nat := c.info.size_x

/-- The accessor `Costmap2D::getSizeInCellsY`. -/
def Costmap2D.getSizeInCellsY (c : Costmap2D) : Nat := c.info.size_y

/-- The accessor `Costmap2D::getCharMap`. -/
def Costmap2D.getCharMap (c : Costmap2D) : CharMap := c.costmap_

/-- The row-major linear index of cell `(x, y)` in a grid of width `nx`. -/
def cellIndex (nx x y : Nat) : Nat := y * nx + x

/-- The cost byte of cell `(x, y)`. -/
def Costmap2D.getCost (c : Costmap2D) (x y : Nat) : Nat :=
  c.costmap_ (cellIndex c.info.size_x x y)

/-- A `costmap_2d::Costmap2DROS`: a costmap together with its global frame. -/
structure Costmap2DROS where
  costmap : Costmap2D
  global_frame : String

/-- The accessor `Costmap2DROS::getCostmap`. -/
def Costmap2DROS.getCostmap (c : Costmap2DROS) : Costmap2D := c.costmap

/-- The accessor `Costmap2DROS::getGlobalFrameID`. -/
def Costmap2DROS.getGlobalFrameID (c : Costmap2DROS) : String := c.global_frame

/-- Whether cell `(x, y)` lies on the border of an `nx` by `ny` grid:
`x = 0`, `x = nx - 1`, `y = 0` or `y = ny - 1`. -/
def isBorder (nx ny x y : Nat) : Bool :=
  x == 0 || x == nx - 1 || y == 0 || y == ny - 1

/-- Modelled from the spec: `outlineMap` (a member of `FollowPlanner` that `makePlan`
calls and whose body is not in the sources). The spec: "sets every border cell
(x=0, x=W-1, y=0, y=H-1) to the given cost"; cells are addressed by the row-major
linear index `y·W + x`, and every other byte is left as it is. -/
def outlineMap (costarr : CharMap) (nx ny : Nat) (value : Nat) : CharMap :=
  fun i => if i < nx * ny ∧ isBorder nx ny (i % nx) (i / nx) = true then value else costarr i

/-- Modelled from the spec: `clearRobotCell` (a member of `FollowPlanner` that
`makePlan` calls and whose body is not in the sources). The spec: "forces a single
cell's cost to free/traversable. Applied to the start cell". The pose argument is
carried as in the call and the cell is addressed by its row-major index. -/
def clearRobotCell (free : Nat) (costmap : Costmap2D) (global_pose : PoseStamped)
    (mx my : Nat) : Costmap2D :=
  { costmap with
    costmap_ := fun i => if i = cellIndex costmap.info.size_x mx my then free
                         else costmap.costmap_ i }

/-! ## Strategy objects -/

/-- The potential estimator behind `p_calc_`: `QuadraticCalculator` or
`PotentialCalculator`, with the grid size it was given. -/
structure PotentialCalculator where
  quadratic : Bool
  nx : Nat
  ny : Nat
deriving DecidableEq, Repr

/-- The expansion behind `planner_`: `DijkstraExpansion` or `AStarExpansion`, with the
settings `initialize` applies to it and the grid size it was given. -/
structure Expander where
  dijkstra : Bool
  precise_start : Bool
  has_unknown : Bool
  nx : Nat
  ny : Nat
deriving DecidableEq, Repr

/-- The path maker behind `path_maker_`: `GridPath` or `GradientPath`, with the grid
size it was given. -/
structure Traceback where
  grid_path : Bool
  nx : Nat
  ny : Nat
deriving DecidableEq, Repr

/-- The method `setSize` of the potential calculator. -/
def PotentialCalculator.setSize (p : PotentialCalculator) (nx ny : Nat) : PotentialCalculator :=
  { p with nx := nx, ny := ny }

/-- The method `setSize` of the expander. -/
def Expander.setSize (e : Expander) (nx ny : Nat) : Expander :=
  { e with nx := nx, ny := ny }

/-- The method `setSize` of the path maker. -/
def Traceback.setSize (t : Traceback) (nx ny : Nat) : Traceback :=
  { t with nx := nx, ny := ny }

/-! ## Trace of a call -/

/-- The texts of the `ROS_ERROR` and `ROS_WARN` calls of the planner. -/
inductive Msg where
  /-- "This planner has not been initialized yet, but it is being used, ..." -/
  | notInitialized
  /-- "The goal pose passed to this planner must be in the %s frame. It is instead
  in the %s frame." -/
  | goalFrame (expected actual : String)
  /-- "The start pose passed to this planner must be in the %s frame. It is instead
  in the %s frame." -/
  | startFrame (expected actual : String)
  /-- "The robot's start position is off the global costmap. ..." -/
  | startOffMap
  /-- "The goal sent to the navfn planner is off the global costmap. ..." -/
  | goalOffMap
  /-- "Failed to get a plan from potential when a legal potential was found. ..." -/
  | noPlanFromPotential
  /-- "Failed to get a plan." -/
  | failedToGetPlan
  /-- "This planner has already been initialized, you can't call it twice, ..." -/
  | alreadyInitialized
deriving DecidableEq, Repr

/-- One observable step of a call, in program order. Calls to collaborators carry
their arguments and what they returned. -/
inductive Event where
  | rosError (m : Msg)
  | rosWarn (m : Msg)
  /-- The call `costmap_->worldToMap(wx, wy, mx, my)`. -/
  | costmapWorldToMap (wx wy : ℚ) (cell : Option (Nat × Nat))
  /-- The call of the member `worldToMap(wx, wy, mx, my)` on doubles. -/
  | worldToMap (wx wy mx my : ℚ)
  | clearRobotCell (mx my : Nat)
  /-- The three `setSize(nx, ny)` calls. -/
  | setSize (nx ny : Nat)
  /-- The allocation `new float[n]`. -/
  | newPotential (n : Nat)
  | outlineMap (nx ny value : Nat)
  /-- The call `planner_->calculatePotentials`, with the cost array it was handed, its
  return value and the potential array it left. -/
  | calculatePotentials (costs : CharMap) (start_x start_y goal_x goal_y : ℚ) (cycles : Nat)
      (found_legal : Bool) (potential : Potential)
  /-- The call `planner_->clearEndpoint`, with the potential array before and after. -/
  | clearEndpoint (costs : CharMap) (before : Potential) (gx gy s : Nat) (after : Potential)
  | publishPotential (potential : Potential)
  /-- The call `getPlanFromPotential`, with its return value and the plan it left. -/
  | getPlanFromPotential (start_x start_y goal_x goal_y : ℚ) (goal : PoseStamped)
      (ok : Bool) (plan : List PoseStamped)
  /-- A reading of `ros::Time::now()`. -/
  | timeNow (t : Time)
  | publishPlan (gui_path : Path)
  /-- The release `delete potential_array_`. -/
  | deletePotential
  | advertise (topic : String)
  | advertiseService (service : String)
  | setCallback

/-- Whether the event is a coordinate conversion. -/
def Event.isConversion : Event → Bool
  | .costmapWorldToMap _ _ _ => true
  | .worldToMap _ _ _ _ => true
  | _ => false

/-- Whether the event clears the start cell. -/
def Event.isClearRobotCell : Event → Bool
  | .clearRobotCell _ _ => true
  | _ => false

/-- Whether the event outlines the border. -/
def Event.isOutlineMap : Event → Bool
  | .outlineMap _ _ _ => true
  | _ => false

/-- Whether the event allocates a potential array. -/
def Event.isNewPotential : Event → Bool
  | .newPotential _ => true
  | _ => false

/-- Whether the event is an expansion run. -/
def Event.isCalculatePotentials : Event → Bool
  | .calculatePotentials _ _ _ _ _ _ _ _ => true
  | _ => false

/-- Whether the event is an expansion run that found a legal potential. -/
def Event.isLegalExpansion : Event → Bool
  | .calculatePotentials _ _ _ _ _ _ found_legal _ => found_legal
  | _ => false

/-- Whether the event is the endpoint post-pass. -/
def Event.isClearEndpoint : Event → Bool
  | .clearEndpoint _ _ _ _ _ _ => true
  | _ => false

/-- Whether the event is a path extraction. -/
def Event.isGetPlanFromPotential : Event → Bool
  | .getPlanFromPotential _ _ _ _ _ _ _ => true
  | _ => false

/-- The path an extraction event left in the plan vector when it reported success. -/
def Event.extractedPath : Event → Option (List PoseStamped)
  | .getPlanFromPotential _ _ _ _ _ true plan => some plan
  | _ => none

/-- The cost array an expansion event was handed. -/
def Event.expansionCosts : Event → Option CharMap
  | .calculatePotentials costs _ _ _ _ _ _ _ => some costs
  | _ => none

/-- The cost array the expansion of a call was handed, if expansion ran. -/
def expansionCostsOf (tr : List Event) : Option CharMap := tr.findSome? Event.expansionCosts

/-- The path a successful extraction of a call left, if there was one. -/
def extractedPathOf (tr : List Event) : Option (List PoseStamped) :=
  tr.findSome? Event.extractedPath

/-- What one call of `makePlan` leaves behind: the returned flag, the caller's plan
vector, the planner afterwards, the contents of the potential array when it is
released (`none` when none was allocated), and the trace. -/
structure Outcome (σ : Type) where
  ret : Bool
  plan : List PoseStamped
  state : σ
  potential : Option Potential
  trace : List Event

/-! ## `src/src/follow_planner.cpp` -/

namespace Core

/-- The members of `follow_planner::FollowPlanner` that the translation unit reads or
writes. Pointer members are carried by the objects they point to: `makePlan`
dereferences none of them before its `initialized_` guard, and `initialize` assigns
all of them before it sets `initialized_`. The potential array is owned by one call of
`makePlan` (allocated and released there) and is reported in its `Outcome`. -/
structure FollowPlanner where
  costmap_ : Costmap2D
  frame_id_ : String
  initialized_ : Bool
  allow_unknown_ : Bool
  old_navfn_behavior_ : Bool
  convert_offset_ : ℚ
  p_calc_ : PotentialCalculator
  planner_ : Expander
  path_maker_ : Traceback
  planner_window_x_ : ℚ
  planner_window_y_ : ℚ
  default_tolerance_ : ℚ
  publish_scale_ : Int
  publish_potential_ : Bool
  tf_prefix_ : String

/-- The collaborators of the planner that live outside the translation unit. -/
structure Env where
  /-- The constant `costmap_2d::LETHAL_OBSTACLE` of `costmap_2d/cost_values.h`. -/
  LETHAL_OBSTACLE : Nat
  /-- The constant `costmap_2d::FREE_SPACE` of `costmap_2d/cost_values.h`. -/
  FREE_SPACE : Nat
  /-- The function `tf::resolve(prefix, frame)`. -/
  resolve : String → String → String
  /-- The function `tf::getPrefixParam`. -/
  getPrefixParam : String
  /-- A boolean of the parameter server, by namespace and key. -/
  paramBool : String → String → Option Bool
  /-- A double of the parameter server, by namespace and key. -/
  paramDouble : String → String → Option ℚ
  /-- An integer of the parameter server, by namespace and key. -/
  paramInt : String → String → Option Int
  /-- The reading of `ros::Time::now()` taken by `makePlan`. -/
  now : Time
  /-- The method `Costmap2D::worldToMap`: the cell of a world position, or failure. -/
  costmapWorldToMap : MapInfo → ℚ → ℚ → Option (Nat × Nat)
  /-- The member `worldToMap` on doubles (body not in the sources): the continuous
  map coordinates of a world position, for a grid geometry and `convert_offset_`. -/
  worldToMap : MapInfo → ℚ → ℚ → ℚ → ℚ × ℚ
  /-- The contents of a freshly allocated `float` array of the given length. -/
  newPotential : Nat → Potential
  /-- The method `Expander::calculatePotentials`: the flag it returns and the potential
  array it leaves. -/
  calculatePotentials : PotentialCalculator → Expander → CharMap → ℚ → ℚ → ℚ → ℚ → Nat →
    Potential → Bool × Potential
  /-- The method `Expander::clearEndpoint`: the potential array it leaves. -/
  clearEndpoint : PotentialCalculator → Expander → CharMap → Potential → Nat → Nat → Nat →
    Potential
  /-- The path extractor run by `path_maker_` on the potential array, with its grid
  path already converted to world poses; `none` when extraction fails. -/
  extractPath : Traceback → PotentialCalculator → MapInfo → String → Bool → ℚ → Potential →
    ℚ → ℚ → ℚ → ℚ → PoseStamped → Option (List PoseStamped)
  /-- The member `reconfigureCB` (body not in the sources), which the dynamic
  reconfigure server runs when `initialize` installs it. -/
  reconfigureCB : FollowPlanner → FollowPlanner

/-- The call `private_nh.param(key, var, default)` for a boolean. -/
def Env.boolParam (env : Env) (ns key : String) (dflt : Bool) : Bool :=
  (env.paramBool ns key).getD dflt

/-- The call `private_nh.param(key, var, default)` for a double. -/
def Env.doubleParam (env : Env) (ns key : String) (dflt : ℚ) : ℚ :=
  (env.paramDouble ns key).getD dflt

/-- The call `private_nh.param(key, var, default)` for an integer. -/
def Env.intParam (env : Env) (ns key : String) (dflt : Int) : Int :=
  (env.paramInt ns key).getD dflt

/-- Modelled from the spec: `getPlanFromPotential` (a member of `FollowPlanner` that
`makePlan` calls and whose body is not in the sources). The spec: the path extractor
walks the potential array and produces an ordered path or reports path-extraction
failure; the orchestrator converts the path to world coordinates, and it "returns
failure (empty path)" if extraction fails. The member returns the success flag and
leaves the path in the plan vector; on failure the vector is left as it was handed
over. -/
def getPlanFromPotential (env : Env) (s : FollowPlanner) (potential : Potential)
    (start_x start_y goal_x goal_y : ℚ) (goal : PoseStamped) (plan : List PoseStamped) :
    Bool × List PoseStamped :=
  match env.extractPath s.path_maker_ s.p_calc_ s.costmap_.info s.frame_id_
      s.old_navfn_behavior_ s.convert_offset_ potential start_x start_y goal_x goal_y goal with
  | some path => (true, path)
  | none => (false, plan)

/-- The member `publishPlan`. -/
def publishPlan (s : FollowPlanner) (path : List PoseStamped) : List Event :=
  if s.initialized_ = false then
    [Event.rosError Msg.notInitialized]
  else
    -- create a message for the plan; its header is taken from the first pose
    let header : Header :=
      match path with
      | [] => Header.empty
      | p :: _ => { Header.empty with frame_id := p.header.frame_id, stamp := p.header.stamp }
    -- the loop copies every pose of the path
    [Event.publishPlan { header := header, poses := path }]

/-- The member `initialize(name, costmap, frame_id)`: the planner afterwards and the
trace of the call. -/
def initializeCostmap2D (env : Env) (s : FollowPlanner) (name : String) (costmap : Costmap2D)
    (frame_id : String) : FollowPlanner × List Event :=
  if s.initialized_ = false then
    let ns := "~/" ++ name
    let s := { s with costmap_ := costmap, frame_id_ := frame_id }
    let cx := costmap.getSizeInCellsX
    let cy := costmap.getSizeInCellsY
    let s := { s with old_navfn_behavior_ := env.boolParam ns "old_navfn_behavior" false }
    let s := { s with convert_offset_ := if s.old_navfn_behavior_ = false then 1 / 2 else 0 }
    let use_quadratic := env.boolParam ns "use_quadratic" true
    let s := { s with p_calc_ := { quadratic := use_quadratic, nx := cx, ny := cy } }
    let use_dijkstra := env.boolParam ns "use_dijkstra" true
    -- has_unknown is set by setHasUnknown below, before the expander is used
    let s := { s with
      planner_ :=
        if use_dijkstra then
          { dijkstra := true, precise_start := !s.old_navfn_behavior_, has_unknown := true,
            nx := cx, ny := cy }
        else
          { dijkstra := false, precise_start := false, has_unknown := true,
            nx := cx, ny := cy } }
    let use_grid_path := env.boolParam ns "use_grid_path" false
    let s := { s with path_maker_ := { grid_path := use_grid_path, nx := cx, ny := cy } }
    let s := { s with allow_unknown_ := env.boolParam ns "allow_unknown" true }
    let s := { s with planner_ := { s.planner_ with has_unknown := s.allow_unknown_ } }
    let s := { s with planner_window_x_ := env.doubleParam ns "planner_window_x" 0 }
    let s := { s with planner_window_y_ := env.doubleParam ns "planner_window_y" 0 }
    let s := { s with default_tolerance_ := env.doubleParam ns "default_tolerance" 0 }
    let s := { s with publish_scale_ := env.intParam ns "publish_scale" 100 }
    let costmap_pub_freq := env.doubleParam ns "planner_costmap_publish_frequency" 0
    -- get the tf prefix
    let s := { s with tf_prefix_ := env.getPrefixParam }
    let s := env.reconfigureCB s
    ({ s with initialized_ := true },
      [Event.advertise "plan", Event.advertise "potential",
        Event.advertiseService "make_plan", Event.setCallback])
  else
    (s, [Event.rosWarn Msg.alreadyInitialized])

/-- The member `initialize(name, costmap_ros)`. -/
def initializeCostmap2DROS (env : Env) (s : FollowPlanner) (name : String)
    (costmap_ros : Costmap2DROS) : FollowPlanner × List Event :=
  initializeCostmap2D env s name costmap_ros.getCostmap costmap_ros.getGlobalFrameID

/-- The member `makePlan(start, goal, tolerance, plan)`. -/
def makePlan (env : Env) (s : FollowPlanner) (start goal : PoseStamped) (tolerance : ℚ)
    (plan : List PoseStamped) : Outcome FollowPlanner :=
  if s.initialized_ = false then
    { ret := false, plan := plan, state := s, potential := none,
      trace := [Event.rosError Msg.notInitialized] }
  else
    -- clear the plan, just in case
    let plan : List PoseStamped := []
    let global_frame := s.frame_id_
    if env.resolve s.tf_prefix_ goal.header.frame_id ≠ env.resolve s.tf_prefix_ global_frame then
      { ret := false, plan := plan, state := s, potential := none,
        trace := [Event.rosError (Msg.goalFrame (env.resolve s.tf_prefix_ global_frame)
          (env.resolve s.tf_prefix_ goal.header.frame_id))] }
    else if env.resolve s.tf_prefix_ start.header.frame_id ≠
        env.resolve s.tf_prefix_ global_frame then
      { ret := false, plan := plan, state := s, potential := none,
        trace := [Event.rosError (Msg.startFrame (env.resolve s.tf_prefix_ global_frame)
          (env.resolve s.tf_prefix_ start.header.frame_id))] }
    else
      let wx := start.pose.position.x
      let wy := start.pose.position.y
      match env.costmapWorldToMap s.costmap_.info wx wy with
      | none =>
        { ret := false, plan := plan, state := s, potential := none,
          trace := [Event.costmapWorldToMap wx wy none, Event.rosWarn Msg.startOffMap] }
      | some start_i =>
        let start_x_i := start_i.1
        let start_y_i := start_i.2
        let start_d : ℚ × ℚ :=
          if s.old_navfn_behavior_ then ((start_x_i : ℚ), (start_y_i : ℚ))
          else env.worldToMap s.costmap_.info s.convert_offset_ wx wy
        let start_x := start_d.1
        let start_y := start_d.2
        let tr : List Event :=
          Event.costmapWorldToMap wx wy (some start_i) ::
            (if s.old_navfn_behavior_ then [] else [Event.worldToMap wx wy start_x start_y])
        let wx := goal.pose.position.x
        let wy := goal.pose.position.y
        match env.costmapWorldToMap s.costmap_.info wx wy with
        | none =>
          { ret := false, plan := plan, state := s, potential := none,
            trace := tr ++ [Event.costmapWorldToMap wx wy none, Event.rosWarn Msg.goalOffMap] }
        | some goal_i =>
          let goal_x_i := goal_i.1
          let goal_y_i := goal_i.2
          let goal_d : ℚ × ℚ :=
            if s.old_navfn_behavior_ then ((goal_x_i : ℚ), (goal_y_i : ℚ))
            else env.worldToMap s.costmap_.info s.convert_offset_ wx wy
          let goal_x := goal_d.1
          let goal_y := goal_d.2
          let tr := tr ++ Event.costmapWorldToMap wx wy (some goal_i) ::
            (if s.old_navfn_behavior_ then [] else [Event.worldToMap wx wy goal_x goal_y])
          -- clear the starting cell within the costmap because we know it can't be an obstacle
          let s := { s with
            costmap_ := clearRobotCell env.FREE_SPACE s.costmap_ start start_x_i start_y_i }
          let tr := tr ++ [Event.clearRobotCell start_x_i start_y_i]
          let nx := s.costmap_.getSizeInCellsX
          let ny := s.costmap_.getSizeInCellsY
          -- make sure to resize the underlying array that Navfn uses
          let s := { s with p_calc_ := s.p_calc_.setSize nx ny }
          let s := { s with planner_ := s.planner_.setSize nx ny }
          let s := { s with path_maker_ := s.path_maker_.setSize nx ny }
          let potential_array := env.newPotential (nx * ny)
          let tr := tr ++ [Event.setSize nx ny, Event.setSize nx ny, Event.setSize nx ny,
            Event.newPotential (nx * ny)]
          let s := { s with
            costmap_ := { s.costmap_ with
              costmap_ := outlineMap s.costmap_.getCharMap nx ny env.LETHAL_OBSTACLE } }
          let tr := tr ++ [Event.outlineMap nx ny env.LETHAL_OBSTACLE]
          let expansion := env.calculatePotentials s.p_calc_ s.planner_ s.costmap_.getCharMap
            start_x start_y goal_x goal_y (nx * ny * 2) potential_array
          let found_legal := expansion.1
          let potential_array := expansion.2
          let tr := tr ++ [Event.calculatePotentials s.costmap_.getCharMap start_x start_y
            goal_x goal_y (nx * ny * 2) found_legal potential_array]
          let post : Potential × List Event :=
            if s.old_navfn_behavior_ = false then
              let cleared := env.clearEndpoint s.p_calc_ s.planner_ s.costmap_.getCharMap
                potential_array goal_x_i goal_y_i 2
              (cleared, [Event.clearEndpoint s.costmap_.getCharMap potential_array
                goal_x_i goal_y_i 2 cleared])
            else
              (potential_array, [])
          let potential_array := post.1
          let tr := tr ++ post.2
          let tr := tr ++
            (if s.publish_potential_ then [Event.publishPotential potential_array] else [])
          let extracted : List PoseStamped × List Event :=
            if found_legal then
              -- extract the plan
              let extraction :=
                getPlanFromPotential env s potential_array start_x start_y goal_x goal_y goal plan
              let call := Event.getPlanFromPotential start_x start_y goal_x goal_y goal
                extraction.1 extraction.2
              if extraction.1 then
                -- make sure the goal we push on has the same timestamp as the rest of the plan
                let goal_copy : PoseStamped :=
                  { goal with header := { goal.header with stamp := env.now } }
                -- plan.push_back(goal_copy) is commented out in the source
                (extraction.2, [call, Event.timeNow env.now])
              else
                (extraction.2, [call, Event.rosError Msg.noPlanFromPotential])
            else
              (plan, [Event.rosError Msg.failedToGetPlan])
          let plan := extracted.1
          let tr := tr ++ extracted.2
          -- publish the plan for visualization purposes
          let tr := tr ++ publishPlan s plan ++ [Event.deletePotential]
          { ret := !plan.isEmpty, plan := plan, state := s, potential := some potential_array,
            trace := tr }

/-- The member `makePlan(start, goal, plan)`, which passes `default_tolerance_`. -/
def makePlanDefaultTolerance (env : Env) (s : FollowPlanner) (start goal : PoseStamped)
    (plan : List PoseStamped) : Outcome FollowPlanner :=
  makePlan env s start goal s.default_tolerance_ plan

end Core

/-! ## `src/follow_planner/src/follow_planner.cpp` -/

namespace Skeleton

/-- The members of `follow_planner::FollowPlanner` that this translation unit reads or
writes. -/
structure FollowPlanner where
  frame_id_ : String
  initialized_ : Bool
  allow_unknown_ : Bool
  default_tolerance_ : ℚ
  tf_prefix_ : String
deriving DecidableEq, Repr

/-- The collaborators of the planner that live outside the translation unit. -/
structure Env where
  /-- The function `tf::resolve(prefix, frame)`. -/
  resolve : String → String → String
  /-- The function `tf::getPrefixParam`. -/
  getPrefixParam : String
  /-- A double of the parameter server, by namespace and key. -/
  paramDouble : String → String → Option ℚ
  /-- The reading of `ros::Time::now()` taken by `makePlan`. -/
  now : Time
  /-- The value the local `start_x` holds: it is declared and never assigned. -/
  start_x : ℚ
  /-- The value the local `start_y` holds: it is declared and never assigned. -/
  start_y : ℚ
  /-- The value the local `goal_x` holds: it is declared and never assigned. -/
  goal_x : ℚ
  /-- The value the local `goal_y` holds: it is declared and never assigned. -/
  goal_y : ℚ
  /-- The path extractor, with its grid path already converted to world poses; `none`
  when extraction fails. -/
  extractPath : String → ℚ → ℚ → ℚ → ℚ → PoseStamped → Option (List PoseStamped)

/-- The call `private_nh.param(key, var, default)` for a double. -/
def Env.doubleParam (env : Env) (ns key : String) (dflt : ℚ) : ℚ :=
  (env.paramDouble ns key).getD dflt

/-- Modelled from the spec: `getPlanFromPotential` (a member of `FollowPlanner` that
`makePlan` calls and whose body is not in the sources). The spec: the path extractor
produces an ordered path or reports path-extraction failure, and the orchestrator
"returns failure (empty path)" if extraction fails. The member returns the success
flag and leaves the path in the plan vector; on failure the vector is left as it was
handed over. -/
def getPlanFromPotential (env : Env) (s : FollowPlanner)
    (start_x start_y goal_x goal_y : ℚ) (goal : PoseStamped) (plan : List PoseStamped) :
    Bool × List PoseStamped :=
  match env.extractPath s.frame_id_ start_x start_y goal_x goal_y goal with
  | some path => (true, path)
  | none => (false, plan)

/-- The member `publishPlan`. -/
def publishPlan (s : FollowPlanner) (path : List PoseStamped) : List Event :=
  if s.initialized_ = false then
    [Event.rosError Msg.notInitialized]
  else
    -- create a message for the plan; its header is taken from the first pose
    let header : Header :=
      match path with
      | [] => Header.empty
      | p :: _ => { Header.empty with frame_id := p.header.frame_id, stamp := p.header.stamp }
    -- the loop copies every pose of the path
    [Event.publishPlan { header := header, poses := path }]

/-- The member `initialize(name, costmap, frame_id)`; the costmap argument is unused. -/
def initializeCostmap2D (env : Env) (s : FollowPlanner) (name : String) (costmap : Costmap2D)
    (frame_id : String) : FollowPlanner × List Event :=
  if s.initialized_ = false then
    let ns := "~/" ++ name
    let s := { s with frame_id_ := frame_id }
    let s := { s with default_tolerance_ := env.doubleParam ns "default_tolerance" 0 }
    -- get the tf prefix
    let s := { s with tf_prefix_ := env.getPrefixParam }
    ({ s with initialized_ := true }, [])
  else
    (s, [Event.rosWarn Msg.alreadyInitialized])

/-- The member `initialize(name, costmap_ros)`. -/
def initializeCostmap2DROS (env : Env) (s : FollowPlanner) (name : String)
    (costmap_ros : Costmap2DROS) : FollowPlanner × List Event :=
  initializeCostmap2D env s name costmap_ros.getCostmap costmap_ros.getGlobalFrameID

/-- The member `makePlan(start, goal, tolerance, plan)`. -/
def makePlan (env : Env) (s : FollowPlanner) (start goal : PoseStamped) (tolerance : ℚ)
    (plan : List PoseStamped) : Outcome FollowPlanner :=
  if s.initialized_ = false then
    { ret := false, plan := plan, state := s, potential := none,
      trace := [Event.rosError Msg.notInitialized] }
  else
    -- clear the plan, just in case
    let plan : List PoseStamped := []
    let global_frame := s.frame_id_
    if env.resolve s.tf_prefix_ goal.header.frame_id ≠ env.resolve s.tf_prefix_ global_frame then
      { ret := false, plan := plan, state := s, potential := none,
        trace := [Event.rosError (Msg.goalFrame (env.resolve s.tf_prefix_ global_frame)
          (env.resolve s.tf_prefix_ goal.header.frame_id))] }
    else if env.resolve s.tf_prefix_ start.header.frame_id ≠
        env.resolve s.tf_prefix_ global_frame then
      { ret := false, plan := plan, state := s, potential := none,
        trace := [Event.rosError (Msg.startFrame (env.resolve s.tf_prefix_ global_frame)
          (env.resolve s.tf_prefix_ start.header.frame_id))] }
    else
      let wx := start.pose.position.x
      let wy := start.pose.position.y
      -- start_x, start_y, goal_x and goal_y are declared and never assigned
      let start_x := env.start_x
      let start_y := env.start_y
      let goal_x := env.goal_x
      let goal_y := env.goal_y
      -- TODO: change
      let found_legal := true
      let extracted : List PoseStamped × List Event :=
        if found_legal then
          -- extract the plan
          let extraction := getPlanFromPotential env s start_x start_y goal_x goal_y goal plan
          let call := Event.getPlanFromPotential start_x start_y goal_x goal_y goal
            extraction.1 extraction.2
          if extraction.1 then
            -- make sure the goal we push on has the same timestamp as the rest of the plan
            let goal_copy : PoseStamped :=
              { goal with header := { goal.header with stamp := env.now } }
            -- plan.push_back(goal_copy) is commented out in the source
            (extraction.2, [call, Event.timeNow env.now])
          else
            (extraction.2, [call, Event.rosError Msg.noPlanFromPotential])
        else
          (plan, [Event.rosError Msg.failedToGetPlan])
      let plan := extracted.1
      let tr := extracted.2
      -- publish the plan for visualization purposes
      let tr := tr ++ publishPlan s plan
      { ret := !plan.isEmpty, plan := plan, state := s, potential := none, trace := tr }

/-- The member `makePlan(start, goal, plan)`, which passes `default_tolerance_`. -/
def makePlanDefaultTolerance (env : Env) (s : FollowPlanner) (start goal : PoseStamped)
    (plan : List PoseStamped) : Outcome FollowPlanner :=
  makePlan env s start goal s.default_tolerance_ plan

end Skeleton

/-! ## Sample data

A three by three costmap of unit resolution at the origin, a planner initialized on it
in the frame `map`, and collaborators with fixed answers. -/

namespace Sample

/-- A pose at `(x, y)` in the given frame, with identity orientation. -/
def pose (frame : String) (x y : ℚ) : PoseStamped :=
  { header := { seq := 0, stamp := 0, frame_id := frame },
    pose := { position := { x := x, y := y, z := 0 },
              orientation := { x := 0, y := 0, z := 0, w := 1 } } }

/-- The cell of a world position on a unit-resolution grid at the origin: the integer
parts of the coordinates when they are non-negative and inside the grid. -/
def unitWorldToMap (info : MapInfo) (wx wy : ℚ) : Option (Nat × Nat) :=
  if 0 ≤ wx.num ∧ 0 ≤ wy.num ∧ wx.num.toNat / wx.den < info.size_x ∧
      wy.num.toNat / wy.den < info.size_y then
    some (wx.num.toNat / wx.den, wy.num.toNat / wy.den)
  else none

/-- The geometry of the sample costmap. -/
def info : MapInfo :=
  { size_x := 3, size_y := 3, origin_x := 0, origin_y := 0, resolution := 1 }

/-- The sample costmap: every cell carries cost 7. -/
def costmap : Costmap2D := { info := info, costmap_ := fun _ => 7 }

/-- Collaborators with fixed answers: expansion reports `found_legal` and fills the
potential array with ones, the endpoint post-pass zeroes it, extraction answers
`path`. -/
def env (found_legal : Bool) (path : Option (List PoseStamped)) : Core.Env where
  LETHAL_OBSTACLE := 254
  FREE_SPACE := 0
  resolve := fun tf_prefix frame => tf_prefix ++ "/" ++ frame
  getPrefixParam := ""
  paramBool := fun _ _ => none
  paramDouble := fun _ _ => none
  paramInt := fun _ _ => none
  now := 42
  costmapWorldToMap := unitWorldToMap
  worldToMap := fun _ _ wx wy => (wx, wy)
  newPotential := fun n => List.replicate n 0
  calculatePotentials := fun _ _ _ _ _ _ _ _ potential => (found_legal, potential.map fun _ => 1)
  clearEndpoint := fun _ _ _ potential _ _ _ => potential.map fun _ => 0
  extractPath := fun _ _ _ _ _ _ _ _ _ _ _ _ => path
  reconfigureCB := fun s => s

/-- A planner initialized on the sample costmap in the frame `map`. -/
def planner : Core.FollowPlanner where
  costmap_ := costmap
  frame_id_ := "map"
  initialized_ := true
  allow_unknown_ := true
  old_navfn_behavior_ := false
  convert_offset_ := 0
  p_calc_ := { quadratic := true, nx := 3, ny := 3 }
  planner_ := { dijkstra := true, precise_start := true, has_unknown := true, nx := 3, ny := 3 }
  path_maker_ := { grid_path := false, nx := 3, ny := 3 }
  planner_window_x_ := 0
  planner_window_y_ := 0
  default_tolerance_ := 0
  publish_scale_ := 100
  publish_potential_ := false
  tf_prefix_ := ""

/-- The sample planner before `initialize` has run. -/
def fresh : Core.FollowPlanner := { planner with initialized_ := false }

/-- Collaborators of the cut-down variant, with extraction answering `path`. -/
def skeletonEnv (path : Option (List PoseStamped)) : Skeleton.Env where
  resolve := fun tf_prefix frame => tf_prefix ++ "/" ++ frame
  getPrefixParam := ""
  paramDouble := fun _ _ => none
  now := 42
  start_x := 0
  start_y := 0
  goal_x := 0
  goal_y := 0
  extractPath := fun _ _ _ _ _ _ => path

/-- A planner of the cut-down variant, initialized in the frame `map`. -/
def skeletonPlanner : Skeleton.FollowPlanner where
  frame_id_ := "map"
  initialized_ := true
  allow_unknown_ := true
  default_tolerance_ := 0
  tf_prefix_ := ""

end Sample

/-! ## Grid preparation -/

/-- The linear index of a cell inside the grid gives back its column. -/
theorem cellIndex_mod (nx x y : Nat) (hx : x < nx) : cellIndex nx x y % nx = x := by
  unfold cellIndex
  rw [Nat.add_comm, Nat.add_mul_mod_self_right, Nat.mod_eq_of_lt hx]

/-- The linear index of a cell inside the grid gives back its row. -/
theorem cellIndex_div (nx x y : Nat) (hx : x < nx) : cellIndex nx x y / nx = y := by
  unfold cellIndex
  have hpos : 0 < nx := Nat.lt_of_le_of_lt (Nat.zero_le x) hx
  rw [Nat.add_comm, Nat.add_mul_div_right _ _ hpos, Nat.div_eq_of_lt hx, Nat.zero_add]

/-- The linear index of a cell inside the grid is below the grid size. -/
theorem cellIndex_lt (nx ny x y : Nat) (hx : x < nx) (hy : y < ny) :
    cellIndex nx x y < nx * ny := by
  unfold cellIndex
  calc y * nx + x < y * nx + nx := Nat.add_lt_add_left hx _
    _ = (y + 1) * nx := by ring
    _ ≤ ny * nx := Nat.mul_le_mul_right nx hy
    _ = nx * ny := Nat.mul_comm _ _

/-- Outlining writes the value on every border cell of the grid. -/
theorem outlineMap_border (costarr : CharMap) (nx ny value x y : Nat) (hx : x < nx)
    (hy : y < ny) (hb : isBorder nx ny x y = true) :
    outlineMap costarr nx ny value (cellIndex nx x y) = value := by
  unfold outlineMap
  rw [cellIndex_mod nx x y hx, cellIndex_div nx x y hx]
  simp [cellIndex_lt nx ny x y hx hy, hb]

/-- Outlining leaves a cell inside the grid that is not on the border as it was. -/
theorem outlineMap_interior (costarr : CharMap) (nx ny value x y : Nat) (hx : x < nx)
    (hb : isBorder nx ny x y = false) :
    outlineMap costarr nx ny value (cellIndex nx x y) = costarr (cellIndex nx x y) := by
  unfold outlineMap
  rw [cellIndex_mod nx x y hx, cellIndex_div nx x y hx]
  simp [hb]

/-- Clearing the start cell and outlining again does not change a grid that was
prepared that way. -/
theorem outlineMap_clear_idem (costarr : CharMap) (nx ny value free idx : Nat) :
    outlineMap (fun i => if i = idx then free
        else outlineMap (fun j => if j = idx then free else costarr j) nx ny value i)
      nx ny value
    = outlineMap (fun j => if j = idx then free else costarr j) nx ny value := by
  funext i
  unfold outlineMap
  by_cases hb : i < nx * ny ∧ isBorder nx ny (i % nx) (i / nx) = true
  · simp only [hb, and_self, if_true]
  · simp only [hb, if_false]
    by_cases hi : i = idx
    · simp only [hi, if_true]
    · simp only [hi, if_false, hb]

/-! ## Supporting facts about `makePlan` -/

/-- On an initialized planner the returned flag is "the plan is not empty". -/
theorem Core.makePlan_ret_eq (env : Core.Env) (s : Core.FollowPlanner)
    (start goal : PoseStamped) (tolerance : ℚ) (plan : List PoseStamped)
    (hinit : s.initialized_ = true) :
    (Core.makePlan env s start goal tolerance plan).ret
      = !(Core.makePlan env s start goal tolerance plan).plan.isEmpty := by
  by_cases hg : env.resolve s.tf_prefix_ goal.header.frame_id
      = env.resolve s.tf_prefix_ s.frame_id_
  swap
  · simp [Core.makePlan, hinit, hg]
  by_cases hs : env.resolve s.tf_prefix_ start.header.frame_id
      = env.resolve s.tf_prefix_ s.frame_id_
  swap
  · simp [Core.makePlan, hinit, hg, hs]
  cases h1 : env.costmapWorldToMap s.costmap_.info start.pose.position.x
      start.pose.position.y with
  | none => simp [Core.makePlan, hinit, hg, hs, h1]
  | some si =>
    cases h2 : env.costmapWorldToMap s.costmap_.info goal.pose.position.x
        goal.pose.position.y with
    | none => simp [Core.makePlan, hinit, hg, hs, h1, h2]
    | some gi => simp [Core.makePlan, hinit, hg, hs, h1, h2]

/-- Running `makePlan` again on the planner it left, with the same collaborators and
with the plan vector either as the first call left it or as the caller first passed it,
reproduces the outcome. -/
theorem Core.makePlan_again (env : Core.Env) (s : Core.FollowPlanner)
    (start goal : PoseStamped) (tolerance : ℚ) (plan : List PoseStamped) :
    Core.makePlan env (Core.makePlan env s start goal tolerance plan).state start goal tolerance
        (Core.makePlan env s start goal tolerance plan).plan
      = Core.makePlan env s start goal tolerance plan ∧
    Core.makePlan env (Core.makePlan env s start goal tolerance plan).state start goal tolerance
        plan
      = Core.makePlan env s start goal tolerance plan := by
  by_cases hinit : s.initialized_ = true
  swap
  · simp [Core.makePlan, hinit]
  by_cases hg : env.resolve s.tf_prefix_ goal.header.frame_id
      = env.resolve s.tf_prefix_ s.frame_id_
  swap
  · simp [Core.makePlan, hinit, hg]
  by_cases hs : env.resolve s.tf_prefix_ start.header.frame_id
      = env.resolve s.tf_prefix_ s.frame_id_
  swap
  · simp [Core.makePlan, hinit, hg, hs]
  cases h1 : env.costmapWorldToMap s.costmap_.info start.pose.position.x
      start.pose.position.y with
  | none => simp [Core.makePlan, hinit, hg, hs, h1]
  | some si =>
    cases h2 : env.costmapWorldToMap s.costmap_.info goal.pose.position.x
        goal.pose.position.y with
    | none => simp [Core.makePlan, hinit, hg, hs, h1, h2]
    | some gi =>
      simp [Core.makePlan, hinit, hg, hs, h1, h2, Core.getPlanFromPotential,
        Costmap2D.getCharMap, Costmap2D.getSizeInCellsX, Costmap2D.getSizeInCellsY,
        clearRobotCell, PotentialCalculator.setSize, Expander.setSize, Traceback.setSize,
        Core.publishPlan, outlineMap_clear_idem]

/-- The clock reading does not reach the flag, the plan, the planner, the potential
array or the grid handed to expansion. -/
theorem Core.makePlan_clock (env : Core.Env) (s : Core.FollowPlanner)
    (start goal : PoseStamped) (tolerance : ℚ) (plan : List PoseStamped) (later : Time) :
    (Core.makePlan { env with now := later } s start goal tolerance plan).ret
      = (Core.makePlan env s start goal tolerance plan).ret ∧
    (Core.makePlan { env with now := later } s start goal tolerance plan).plan
      = (Core.makePlan env s start goal tolerance plan).plan ∧
    (Core.makePlan { env with now := later } s start goal tolerance plan).state
      = (Core.makePlan env s start goal tolerance plan).state ∧
    (Core.makePlan { env with now := later } s start goal tolerance plan).potential
      = (Core.makePlan env s start goal tolerance plan).potential ∧
    expansionCostsOf (Core.makePlan { env with now := later } s start goal tolerance plan).trace
      = expansionCostsOf (Core.makePlan env s start goal tolerance plan).trace := by
  by_cases hinit : s.initialized_ = true
  swap
  · simp [Core.makePlan, hinit]
  by_cases hg : env.resolve s.tf_prefix_ goal.header.frame_id
      = env.resolve s.tf_prefix_ s.frame_id_
  swap
  · simp [Core.makePlan, hinit, hg]
  by_cases hs : env.resolve s.tf_prefix_ start.header.frame_id
      = env.resolve s.tf_prefix_ s.frame_id_
  swap
  · simp [Core.makePlan, hinit, hg, hs]
  cases h1 : env.costmapWorldToMap s.costmap_.info start.pose.position.x
      start.pose.position.y with
  | none => simp [Core.makePlan, hinit, hg, hs, h1]
  | some si =>
    cases h2 : env.costmapWorldToMap s.costmap_.info goal.pose.position.x
        goal.pose.position.y with
    | none =>
      cases hold : s.old_navfn_behavior_ <;>
        simp [Core.makePlan, hinit, hg, hs, h1, h2, hold, expansionCostsOf,
          Event.expansionCosts]
    | some gi =>
      simp only [Core.makePlan, hinit, hg, hs, h1, h2, Core.getPlanFromPotential]
      generalize env.calculatePotentials _ _ _ _ _ _ _ _ _ = exp
      generalize env.extractPath _ _ _ _ _ _ _ _ _ _ _ _ = ext
      obtain ⟨found, pot⟩ := exp
      cases found <;> cases ext <;> cases s.old_navfn_behavior_ <;>
        cases s.publish_potential_ <;>
        simp [expansionCostsOf, Event.expansionCosts]

/-! ## The claims -/

/-- Claim C1. On an initialized planner, when the start or the goal world position
does not map into the grid (`costmap_->worldToMap` fails), `makePlan` of
`src/src/follow_planner.cpp` returns false with an empty plan and the planner, cost
grid included, is left exactly as it was: the start cell is not cleared, the border is
not outlined, no potential array is allocated, and neither expansion nor path
extraction is invoked. -/
theorem makePlan_off_map_fails_before_propagation (env : Core.Env) (s : Core.FollowPlanner)
    (start goal : PoseStamped) (tolerance : ℚ) (plan : List PoseStamped)
    (hinit : s.initialized_ = true)
    (hoff : env.costmapWorldToMap s.costmap_.info start.pose.position.x start.pose.position.y
        = none ∨
      env.costmapWorldToMap s.costmap_.info goal.pose.position.x goal.pose.position.y = none) :
    (Core.makePlan env s start goal tolerance plan).ret = false ∧
    (Core.makePlan env s start goal tolerance plan).plan = [] ∧
    (Core.makePlan env s start goal tolerance plan).state = s ∧
    (Core.makePlan env s start goal tolerance plan).potential = none ∧
    (Core.makePlan env s start goal tolerance plan).trace.any Event.isClearRobotCell = false ∧
    (Core.makePlan env s start goal tolerance plan).trace.any Event.isOutlineMap = false ∧
    (Core.makePlan env s start goal tolerance plan).trace.any Event.isNewPotential = false ∧
    (Core.makePlan env s start goal tolerance plan).trace.any Event.isCalculatePotentials
      = false ∧
    (Core.makePlan env s start goal tolerance plan).trace.any Event.isClearEndpoint = false ∧
    (Core.makePlan env s start goal tolerance plan).trace.any Event.isGetPlanFromPotential
      = false := by
  by_cases hg : env.resolve s.tf_prefix_ goal.header.frame_id
      = env.resolve s.tf_prefix_ s.frame_id_
  swap
  · simp [Core.makePlan, hinit, hg, Event.isClearRobotCell, Event.isOutlineMap,
      Event.isNewPotential, Event.isCalculatePotentials, Event.isClearEndpoint,
      Event.isGetPlanFromPotential]
  by_cases hs : env.resolve s.tf_prefix_ start.header.frame_id
      = env.resolve s.tf_prefix_ s.frame_id_
  swap
  · simp [Core.makePlan, hinit, hg, hs, Event.isClearRobotCell, Event.isOutlineMap,
      Event.isNewPotential, Event.isCalculatePotentials, Event.isClearEndpoint,
      Event.isGetPlanFromPotential]
  cases h1 : env.costmapWorldToMap s.costmap_.info start.pose.position.x
      start.pose.position.y with
  | none =>
    simp [Core.makePlan, hinit, hg, hs, h1, Event.isClearRobotCell, Event.isOutlineMap,
      Event.isNewPotential, Event.isCalculatePotentials, Event.isClearEndpoint,
      Event.isGetPlanFromPotential]
  | some si =>
    have h2 : env.costmapWorldToMap s.costmap_.info goal.pose.position.x
        goal.pose.position.y = none := by
      rcases hoff with h | h
      · rw [h1] at h
        cases h
      · exact h
    cases hold : s.old_navfn_behavior_ <;>
      simp [Core.makePlan, hinit, hg, hs, h1, h2, hold, Event.isClearRobotCell,
        Event.isOutlineMap, Event.isNewPotential, Event.isCalculatePotentials,
        Event.isClearEndpoint, Event.isGetPlanFromPotential]

/-- Claim C1 at a sample request: a start at `(5, 1)` is off the three by three map; the
call fails with an empty plan although the caller's vector held a pose, and the planner
is untouched. -/
theorem makePlan_off_map_fails_before_propagation_witness :
    Sample.planner.initialized_ = true ∧
    (Sample.env true none).costmapWorldToMap Sample.planner.costmap_.info 5 1 = none ∧
    (Core.makePlan (Sample.env true none) Sample.planner (Sample.pose "map" 5 1)
      (Sample.pose "map" 1 1) 0 [Sample.pose "map" 1 1]).ret = false ∧
    (Core.makePlan (Sample.env true none) Sample.planner (Sample.pose "map" 5 1)
      (Sample.pose "map" 1 1) 0 [Sample.pose "map" 1 1]).plan = [] ∧
    (Core.makePlan (Sample.env true none) Sample.planner (Sample.pose "map" 5 1)
      (Sample.pose "map" 1 1) 0 [Sample.pose "map" 1 1]).state = Sample.planner :=
  have h := makePlan_off_map_fails_before_propagation (Sample.env true none) Sample.planner
    (Sample.pose "map" 5 1) (Sample.pose "map" 1 1) 0 [Sample.pose "map" 1 1] (by decide)
    (Or.inl (by decide))
  ⟨by decide, by decide, h.1, h.2.1, h.2.2.1⟩

/-- Claim C2. On an initialized planner, in both translation units, when the resolved
frame of the goal pose or of the start pose differs from the resolved global frame,
`makePlan` returns false with an empty plan and leaves the planner, cost grid included,
as it was; its whole trace is one error message, so no coordinate is converted and
neither expansion nor extraction is invoked; the message is the goal-frame one whenever
the goal frame differs, the start-frame one only when the goal frame matches. -/
theorem makePlan_frame_mismatch_fails_first (env : Core.Env) (s : Core.FollowPlanner)
    (env2 : Skeleton.Env) (s2 : Skeleton.FollowPlanner)
    (start goal : PoseStamped) (tolerance : ℚ) (plan : List PoseStamped)
    (hinit : s.initialized_ = true)
    (hframe : env.resolve s.tf_prefix_ goal.header.frame_id
        ≠ env.resolve s.tf_prefix_ s.frame_id_ ∨
      env.resolve s.tf_prefix_ start.header.frame_id ≠ env.resolve s.tf_prefix_ s.frame_id_)
    (hinit2 : s2.initialized_ = true)
    (hframe2 : env2.resolve s2.tf_prefix_ goal.header.frame_id
        ≠ env2.resolve s2.tf_prefix_ s2.frame_id_ ∨
      env2.resolve s2.tf_prefix_ start.header.frame_id
        ≠ env2.resolve s2.tf_prefix_ s2.frame_id_) :
    ((Core.makePlan env s start goal tolerance plan).ret = false ∧
      (Core.makePlan env s start goal tolerance plan).plan = [] ∧
      (Core.makePlan env s start goal tolerance plan).state = s ∧
      (Core.makePlan env s start goal tolerance plan).potential = none ∧
      (Core.makePlan env s start goal tolerance plan).trace.any Event.isConversion = false ∧
      (Core.makePlan env s start goal tolerance plan).trace.any Event.isCalculatePotentials
        = false ∧
      (Core.makePlan env s start goal tolerance plan).trace.any Event.isGetPlanFromPotential
        = false ∧
      (Core.makePlan env s start goal tolerance plan).trace =
        [Event.rosError
          (if env.resolve s.tf_prefix_ goal.header.frame_id
              ≠ env.resolve s.tf_prefix_ s.frame_id_ then
            Msg.goalFrame (env.resolve s.tf_prefix_ s.frame_id_)
              (env.resolve s.tf_prefix_ goal.header.frame_id)
          else
            Msg.startFrame (env.resolve s.tf_prefix_ s.frame_id_)
              (env.resolve s.tf_prefix_ start.header.frame_id))]) ∧
    ((Skeleton.makePlan env2 s2 start goal tolerance plan).ret = false ∧
      (Skeleton.makePlan env2 s2 start goal tolerance plan).plan = [] ∧
      (Skeleton.makePlan env2 s2 start goal tolerance plan).state = s2 ∧
      (Skeleton.makePlan env2 s2 start goal tolerance plan).trace.any
        Event.isGetPlanFromPotential = false ∧
      (Skeleton.makePlan env2 s2 start goal tolerance plan).trace =
        [Event.rosError
          (if env2.resolve s2.tf_prefix_ goal.header.frame_id
              ≠ env2.resolve s2.tf_prefix_ s2.frame_id_ then
            Msg.goalFrame (env2.resolve s2.tf_prefix_ s2.frame_id_)
              (env2.resolve s2.tf_prefix_ goal.header.frame_id)
          else
            Msg.startFrame (env2.resolve s2.tf_prefix_ s2.frame_id_)
              (env2.resolve s2.tf_prefix_ start.header.frame_id))]) := by
  constructor
  · by_cases hg : env.resolve s.tf_prefix_ goal.header.frame_id
        = env.resolve s.tf_prefix_ s.frame_id_
    · have hs : env.resolve s.tf_prefix_ start.header.frame_id
          ≠ env.resolve s.tf_prefix_ s.frame_id_ := by
        rcases hframe with h | h
        · exact absurd hg h
        · exact h
      simp [Core.makePlan, hinit, hg, hs, Event.isConversion, Event.isCalculatePotentials,
        Event.isGetPlanFromPotential]
    · simp [Core.makePlan, hinit, hg, Event.isConversion, Event.isCalculatePotentials,
        Event.isGetPlanFromPotential]
  · by_cases hg : env2.resolve s2.tf_prefix_ goal.header.frame_id
        = env2.resolve s2.tf_prefix_ s2.frame_id_
    · have hs : env2.resolve s2.tf_prefix_ start.header.frame_id
          ≠ env2.resolve s2.tf_prefix_ s2.frame_id_ := by
        rcases hframe2 with h | h
        · exact absurd hg h
        · exact h
      simp [Skeleton.makePlan, hinit2, hg, hs, Event.isGetPlanFromPotential]
    · simp [Skeleton.makePlan, hinit2, hg, Event.isGetPlanFromPotential]

/-- Claim C2 at a sample request: goal and start are both in the frame `odom` while the
planner works in `map`; the one message logged is the goal-frame one. -/
theorem makePlan_frame_mismatch_fails_first_witness :
    (Sample.env true none).resolve "" "odom" ≠ (Sample.env true none).resolve "" "map" ∧
    (Core.makePlan (Sample.env true none) Sample.planner (Sample.pose "odom" 0 0)
      (Sample.pose "odom" 2 2) 0 [Sample.pose "map" 1 1]).ret = false ∧
    (Core.makePlan (Sample.env true none) Sample.planner (Sample.pose "odom" 0 0)
      (Sample.pose "odom" 2 2) 0 [Sample.pose "map" 1 1]).plan = [] ∧
    (Core.makePlan (Sample.env true none) Sample.planner (Sample.pose "odom" 0 0)
      (Sample.pose "odom" 2 2) 0 [Sample.pose "map" 1 1]).trace
        = [Event.rosError (Msg.goalFrame "/map" "/odom")] ∧
    (Skeleton.makePlan (Sample.skeletonEnv none) Sample.skeletonPlanner
      (Sample.pose "odom" 0 0) (Sample.pose "odom" 2 2) 0 [Sample.pose "map" 1 1]).plan = [] :=
  have h := makePlan_frame_mismatch_fails_first (Sample.env true none) Sample.planner
    (Sample.skeletonEnv none) Sample.skeletonPlanner (Sample.pose "odom" 0 0)
    (Sample.pose "odom" 2 2) 0 [Sample.pose "map" 1 1] (by decide) (Or.inl (by decide))
    (by decide) (Or.inl (by decide))
  ⟨by decide, h.1.1, h.1.2.1, h.1.2.2.2.2.2.2.2, h.2.2.1⟩

/-- Claim C3, as stated, fails: on a planner that has not been initialized `makePlan`
returns false before it clears the plan, so a vector that held a pose on entry still
holds it on return. -/
theorem makePlan_uninitialized_keeps_plan :
    Sample.fresh.initialized_ = false ∧
    (Core.makePlan (Sample.env true none) Sample.fresh (Sample.pose "map" 0 0)
      (Sample.pose "map" 2 2) 0 [Sample.pose "map" 1 1]).ret = false ∧
    (Core.makePlan (Sample.env true none) Sample.fresh (Sample.pose "map" 0 0)
      (Sample.pose "map" 2 2) 0 [Sample.pose "map" 1 1]).plan = [Sample.pose "map" 1 1] ∧
    (Core.makePlan (Sample.env true none) Sample.fresh (Sample.pose "map" 0 0)
      (Sample.pose "map" 2 2) 0 [Sample.pose "map" 1 1]).plan ≠ [] := by
  decide

/-- Claim C3, amended. For every call of `makePlan` that returns false: on an
initialized planner the plan vector is empty on return, whatever the failure kind and
whatever the vector held on entry; on a planner that has not been initialized the
vector is returned as the caller passed it. -/
theorem makePlan_false_plan (env : Core.Env) (s : Core.FollowPlanner)
    (start goal : PoseStamped) (tolerance : ℚ) (plan : List PoseStamped)
    (hret : (Core.makePlan env s start goal tolerance plan).ret = false) :
    (s.initialized_ = true → (Core.makePlan env s start goal tolerance plan).plan = []) ∧
    (s.initialized_ = false → (Core.makePlan env s start goal tolerance plan).plan = plan) := by
  constructor
  · intro hinit
    rw [Core.makePlan_ret_eq env s start goal tolerance plan hinit] at hret
    simpa using hret
  · intro hinit
    simp [Core.makePlan, hinit]

/-- Claim C3, amended, at a sample request: expansion finds no legal potential on an
initialized planner; the call returns false and the pose the vector held is gone. -/
theorem makePlan_false_plan_witness :
    (Core.makePlan (Sample.env false none) Sample.planner (Sample.pose "map" 0 0)
      (Sample.pose "map" 2 2) 0 [Sample.pose "map" 1 1]).ret = false ∧
    (Core.makePlan (Sample.env false none) Sample.planner (Sample.pose "map" 0 0)
      (Sample.pose "map" 2 2) 0 [Sample.pose "map" 1 1]).plan = [] :=
  ⟨by decide,
    (makePlan_false_plan (Sample.env false none) Sample.planner (Sample.pose "map" 0 0)
      (Sample.pose "map" 2 2) 0 [Sample.pose "map" 1 1] (by decide)).1 (by decide)⟩

/-- Claim C4, as stated, fails: expansion finds a legal potential and extraction
succeeds with a one-pose path; the returned plan is that path alone, and its last
element is not the goal copy stamped with the clock reading. -/
theorem makePlan_does_not_append_goal :
    (Core.makePlan (Sample.env true (some [Sample.pose "map" 1 1])) Sample.planner
      (Sample.pose "map" 0 0) (Sample.pose "map" 2 2) 0 []).trace.any Event.isLegalExpansion
        = true ∧
    extractedPathOf (Core.makePlan (Sample.env true (some [Sample.pose "map" 1 1]))
      Sample.planner (Sample.pose "map" 0 0) (Sample.pose "map" 2 2) 0 []).trace
        = some [Sample.pose "map" 1 1] ∧
    (Core.makePlan (Sample.env true (some [Sample.pose "map" 1 1])) Sample.planner
      (Sample.pose "map" 0 0) (Sample.pose "map" 2 2) 0 []).ret = true ∧
    (Core.makePlan (Sample.env true (some [Sample.pose "map" 1 1])) Sample.planner
      (Sample.pose "map" 0 0) (Sample.pose "map" 2 2) 0 []).plan = [Sample.pose "map" 1 1] ∧
    (Core.makePlan (Sample.env true (some [Sample.pose "map" 1 1])) Sample.planner
      (Sample.pose "map" 0 0) (Sample.pose "map" 2 2) 0 []).plan.getLast?
        ≠ some { Sample.pose "map" 2 2 with
            header := { (Sample.pose "map" 2 2).header with
              stamp := (Sample.env true (some [Sample.pose "map" 1 1])).now } } := by
  decide

/-- Claim C4, amended. In both translation units, for every call of `makePlan` in
which path extraction succeeds (in `src/src/follow_planner.cpp`: after expansion found a
legal potential), the returned plan is exactly the extracted path: the goal copy with
the fresh timestamp is not appended, and the call returns true exactly when that path
is not empty. -/
theorem makePlan_plan_is_extracted_path (env : Core.Env) (s : Core.FollowPlanner)
    (env2 : Skeleton.Env) (s2 : Skeleton.FollowPlanner)
    (start goal : PoseStamped) (tolerance : ℚ) (plan path path2 : List PoseStamped)
    (hlegal : (Core.makePlan env s start goal tolerance plan).trace.any Event.isLegalExpansion
      = true)
    (hpath : extractedPathOf (Core.makePlan env s start goal tolerance plan).trace = some path)
    (hpath2 : extractedPathOf (Skeleton.makePlan env2 s2 start goal tolerance plan).trace
      = some path2) :
    ((Core.makePlan env s start goal tolerance plan).plan = path ∧
      (Core.makePlan env s start goal tolerance plan).ret = !path.isEmpty ∧
      (Core.makePlan env s start goal tolerance plan).plan
        ≠ path ++ [{ goal with header := { goal.header with stamp := env.now } }]) ∧
    ((Skeleton.makePlan env2 s2 start goal tolerance plan).plan = path2 ∧
      (Skeleton.makePlan env2 s2 start goal tolerance plan).ret = !path2.isEmpty ∧
      (Skeleton.makePlan env2 s2 start goal tolerance plan).plan
        ≠ path2 ++ [{ goal with header := { goal.header with stamp := env2.now } }]) := by
  have key : (Core.makePlan env s start goal tolerance plan).plan = path ∧
      (Core.makePlan env s start goal tolerance plan).ret = !path.isEmpty := by
    by_cases hinit : s.initialized_ = true
    swap
    · simp [Core.makePlan, hinit, Event.isLegalExpansion] at hlegal
    by_cases hg : env.resolve s.tf_prefix_ goal.header.frame_id
        = env.resolve s.tf_prefix_ s.frame_id_
    swap
    · simp [Core.makePlan, hinit, hg, Event.isLegalExpansion] at hlegal
    by_cases hs : env.resolve s.tf_prefix_ start.header.frame_id
        = env.resolve s.tf_prefix_ s.frame_id_
    swap
    · simp [Core.makePlan, hinit, hg, hs, Event.isLegalExpansion] at hlegal
    cases h1 : env.costmapWorldToMap s.costmap_.info start.pose.position.x
        start.pose.position.y with
    | none => simp [Core.makePlan, hinit, hg, hs, h1, Event.isLegalExpansion] at hlegal
    | some si =>
      cases h2 : env.costmapWorldToMap s.costmap_.info goal.pose.position.x
          goal.pose.position.y with
      | none =>
        cases hold : s.old_navfn_behavior_ <;>
          simp [Core.makePlan, hinit, hg, hs, h1, h2, hold, Event.isLegalExpansion] at hlegal
      | some gi =>
        revert hlegal hpath
        simp only [Core.makePlan, hinit, hg, hs, h1, h2, Core.getPlanFromPotential]
        generalize env.calculatePotentials _ _ _ _ _ _ _ _ _ = exp
        generalize env.extractPath _ _ _ _ _ _ _ _ _ _ _ _ = ext
        obtain ⟨found, pot⟩ := exp
        cases found <;> cases ext <;> cases s.old_navfn_behavior_ <;>
          cases s.publish_potential_ <;>
          simp [Event.isLegalExpansion, extractedPathOf, Event.extractedPath,
            Core.publishPlan, hinit] <;>
          intro h <;> simp [h]
  have key2 : (Skeleton.makePlan env2 s2 start goal tolerance plan).plan = path2 ∧
      (Skeleton.makePlan env2 s2 start goal tolerance plan).ret = !path2.isEmpty := by
    by_cases hinit : s2.initialized_ = true
    swap
    · simp [Skeleton.makePlan, hinit, extractedPathOf, Event.extractedPath] at hpath2
    by_cases hg : env2.resolve s2.tf_prefix_ goal.header.frame_id
        = env2.resolve s2.tf_prefix_ s2.frame_id_
    swap
    · simp [Skeleton.makePlan, hinit, hg, extractedPathOf, Event.extractedPath] at hpath2
    by_cases hs : env2.resolve s2.tf_prefix_ start.header.frame_id
        = env2.resolve s2.tf_prefix_ s2.frame_id_
    swap
    · simp [Skeleton.makePlan, hinit, hg, hs, extractedPathOf, Event.extractedPath] at hpath2
    revert hpath2
    simp only [Skeleton.makePlan, hinit, hg, hs, Skeleton.getPlanFromPotential]
    generalize env2.extractPath _ _ _ _ _ _ = ext
    cases ext with
    | none => simp [extractedPathOf, Event.extractedPath, Skeleton.publishPlan, hinit]
    | some p =>
      simp [extractedPathOf, Event.extractedPath, Skeleton.publishPlan, hinit]
      intro h
      simp [h]
  refine ⟨⟨key.1, key.2, ?_⟩, ⟨key2.1, key2.2, ?_⟩⟩
  · rw [key.1]
    intro h
    have hlen := congrArg List.length h
    simp at hlen
  · rw [key2.1]
    intro h
    have hlen := congrArg List.length h
    simp at hlen

/-- Claim C4, amended, at a sample request in each translation unit: extraction yields
a one-pose path and the plan returned is that path. -/
theorem makePlan_plan_is_extracted_path_witness :
    (Core.makePlan (Sample.env true (some [Sample.pose "map" 1 1])) Sample.planner
      (Sample.pose "map" 0 0) (Sample.pose "map" 2 2) 0 []).plan = [Sample.pose "map" 1 1] ∧
    (Skeleton.makePlan (Sample.skeletonEnv (some [Sample.pose "map" 1 1]))
      Sample.skeletonPlanner (Sample.pose "map" 0 0) (Sample.pose "map" 2 2) 0 []).plan
        = [Sample.pose "map" 1 1] :=
  have h := makePlan_plan_is_extracted_path (Sample.env true (some [Sample.pose "map" 1 1]))
    Sample.planner (Sample.skeletonEnv (some [Sample.pose "map" 1 1])) Sample.skeletonPlanner
    (Sample.pose "map" 0 0) (Sample.pose "map" 2 2) 0 [] [Sample.pose "map" 1 1]
    [Sample.pose "map" 1 1] (by decide) (by decide) (by decide)
  ⟨h.1.1, h.2.1⟩

/-- Claim C6. Calling `makePlan` a second time with the same arguments, on the planner
and grid the first call left and whatever the clock then reads, gives the same
returned flag and the same plan, leaves the same planner and cost grid, and hands
expansion the same prepared grid: clearing the start cell and outlining the border
again does not change the grid the first call prepared. -/
theorem makePlan_twice_same_outcome (env : Core.Env) (s : Core.FollowPlanner)
    (start goal : PoseStamped) (tolerance : ℚ) (plan : List PoseStamped) (later : Time) :
    (Core.makePlan { env with now := later }
        (Core.makePlan env s start goal tolerance plan).state start goal tolerance
        (Core.makePlan env s start goal tolerance plan).plan).ret
      = (Core.makePlan env s start goal tolerance plan).ret ∧
    (Core.makePlan { env with now := later }
        (Core.makePlan env s start goal tolerance plan).state start goal tolerance
        (Core.makePlan env s start goal tolerance plan).plan).plan
      = (Core.makePlan env s start goal tolerance plan).plan ∧
    (Core.makePlan { env with now := later }
        (Core.makePlan env s start goal tolerance plan).state start goal tolerance
        (Core.makePlan env s start goal tolerance plan).plan).state
      = (Core.makePlan env s start goal tolerance plan).state ∧
    (Core.makePlan { env with now := later }
        (Core.makePlan env s start goal tolerance plan).state start goal tolerance
        (Core.makePlan env s start goal tolerance plan).plan).potential
      = (Core.makePlan env s start goal tolerance plan).potential ∧
    expansionCostsOf (Core.makePlan { env with now := later }
        (Core.makePlan env s start goal tolerance plan).state start goal tolerance
        (Core.makePlan env s start goal tolerance plan).plan).trace
      = expansionCostsOf (Core.makePlan env s start goal tolerance plan).trace ∧
    (Core.makePlan { env with now := later }
        (Core.makePlan env s start goal tolerance plan).state start goal tolerance plan).ret
      = (Core.makePlan env s start goal tolerance plan).ret ∧
    (Core.makePlan { env with now := later }
        (Core.makePlan env s start goal tolerance plan).state start goal tolerance plan).plan
      = (Core.makePlan env s start goal tolerance plan).plan := by
  have h := Core.makePlan_clock env (Core.makePlan env s start goal tolerance plan).state
    start goal tolerance (Core.makePlan env s start goal tolerance plan).plan later
  rw [(Core.makePlan_again env s start goal tolerance plan).1] at h
  have h2 := Core.makePlan_clock env (Core.makePlan env s start goal tolerance plan).state
    start goal tolerance plan later
  rw [(Core.makePlan_again env s start goal tolerance plan).2] at h2
  exact ⟨h.1, h.2.1, h.2.2.1, h.2.2.2.1, h.2.2.2.2, h2.1, h2.2.1⟩

/-- Claim C8, as stated, fails: a start that maps to the border cell `(0, 0)` is
cleared first and outlined afterwards, so the grid handed to expansion carries the
lethal cost on the start cell, not the free cost. -/
theorem makePlan_border_start_is_lethal :
    (Sample.env true none).costmapWorldToMap Sample.planner.costmap_.info 0 0 = some (0, 0) ∧
    isBorder 3 3 0 0 = true ∧
    (expansionCostsOf (Core.makePlan (Sample.env true none) Sample.planner
      (Sample.pose "map" 0 0) (Sample.pose "map" 2 2) 0 []).trace).map
        (fun costs => costs (cellIndex 3 0 0)) = some (Sample.env true none).LETHAL_OBSTACLE ∧
    (expansionCostsOf (Core.makePlan (Sample.env true none) Sample.planner
      (Sample.pose "map" 0 0) (Sample.pose "map" 2 2) 0 []).trace).map
        (fun costs => costs (cellIndex 3 0 0)) ≠ some (Sample.env true none).FREE_SPACE := by
  decide

/-- Claim C8, amended. For every request whose start maps to a cell `(mx, my)` of the
grid, the grid handed to expansion has the lethal cost on every border cell; its start
cell is free when the start is not a border cell, and lethal when it is one (the
outline, applied after the clearing, overwrites it). -/
theorem makePlan_grid_at_expansion (env : Core.Env) (s : Core.FollowPlanner)
    (start goal : PoseStamped) (tolerance : ℚ) (plan : List PoseStamped) (mx my : Nat)
    (costs : CharMap)
    (h1 : env.costmapWorldToMap s.costmap_.info start.pose.position.x start.pose.position.y
        = some (mx, my))
    (hmx : mx < s.costmap_.getSizeInCellsX) (hmy : my < s.costmap_.getSizeInCellsY)
    (hexp : expansionCostsOf (Core.makePlan env s start goal tolerance plan).trace
        = some costs) :
    (∀ x y, x < s.costmap_.getSizeInCellsX → y < s.costmap_.getSizeInCellsY →
      isBorder s.costmap_.getSizeInCellsX s.costmap_.getSizeInCellsY x y = true →
      costs (cellIndex s.costmap_.getSizeInCellsX x y) = env.LETHAL_OBSTACLE) ∧
    (isBorder s.costmap_.getSizeInCellsX s.costmap_.getSizeInCellsY mx my = false →
      costs (cellIndex s.costmap_.getSizeInCellsX mx my) = env.FREE_SPACE) ∧
    (isBorder s.costmap_.getSizeInCellsX s.costmap_.getSizeInCellsY mx my = true →
      costs (cellIndex s.costmap_.getSizeInCellsX mx my) = env.LETHAL_OBSTACLE) := by
  have hcosts : costs = outlineMap (clearRobotCell env.FREE_SPACE s.costmap_ start mx my).costmap_
      s.costmap_.getSizeInCellsX s.costmap_.getSizeInCellsY env.LETHAL_OBSTACLE := by
    by_cases hinit : s.initialized_ = true
    swap
    · simp [Core.makePlan, hinit, expansionCostsOf, Event.expansionCosts] at hexp
    by_cases hg : env.resolve s.tf_prefix_ goal.header.frame_id
        = env.resolve s.tf_prefix_ s.frame_id_
    swap
    · simp [Core.makePlan, hinit, hg, expansionCostsOf, Event.expansionCosts] at hexp
    by_cases hs : env.resolve s.tf_prefix_ start.header.frame_id
        = env.resolve s.tf_prefix_ s.frame_id_
    swap
    · simp [Core.makePlan, hinit, hg, hs, expansionCostsOf, Event.expansionCosts] at hexp
    cases h2 : env.costmapWorldToMap s.costmap_.info goal.pose.position.x
        goal.pose.position.y with
    | none =>
      cases hold : s.old_navfn_behavior_ <;>
        simp [Core.makePlan, hinit, hg, hs, h1, h2, hold, expansionCostsOf,
          Event.expansionCosts] at hexp
    | some gi =>
      revert hexp
      simp only [Core.makePlan, hinit, hg, hs, h1, h2, Core.getPlanFromPotential]
      generalize env.calculatePotentials _ _ _ _ _ _ _ _ _ = exp
      generalize env.extractPath _ _ _ _ _ _ _ _ _ _ _ _ = ext
      obtain ⟨found, pot⟩ := exp
      cases found <;> cases ext <;> cases s.old_navfn_behavior_ <;>
        cases s.publish_potential_ <;>
        simp [expansionCostsOf, Event.expansionCosts, Costmap2D.getCharMap,
          Costmap2D.getSizeInCellsX, Costmap2D.getSizeInCellsY, clearRobotCell] <;>
        intro h <;> exact h.symm
  subst hcosts
  refine ⟨?_, ?_, ?_⟩
  · intro x y hx hy hb
    exact outlineMap_border _ _ _ _ x y hx hy hb
  · intro hb
    rw [outlineMap_interior _ _ _ _ mx my hmx hb]
    simp [clearRobotCell, Costmap2D.getSizeInCellsX]
  · intro hb
    exact outlineMap_border _ _ _ _ mx my hmx hmy hb

/-- Claim C8, amended, at a sample request whose start maps to the inner cell `(1, 1)`:
the cell carried cost 7 and is free in the grid handed to expansion, and the corner
cell `(2, 2)` is lethal. -/
theorem makePlan_grid_at_expansion_witness :
    (Sample.env true none).costmapWorldToMap Sample.planner.costmap_.info 1 1 = some (1, 1) ∧
    Sample.planner.costmap_.getCost 1 1 = 7 ∧
    (Core.makePlan (Sample.env true none) Sample.planner (Sample.pose "map" 1 1)
      (Sample.pose "map" 2 2) 0 []).state.costmap_.getCost 1 1 = 0 ∧
    (Core.makePlan (Sample.env true none) Sample.planner (Sample.pose "map" 1 1)
      (Sample.pose "map" 2 2) 0 []).state.costmap_.getCost 2 2 = 254 :=
  have h := makePlan_grid_at_expansion (Sample.env true none) Sample.planner
    (Sample.pose "map" 1 1) (Sample.pose "map" 2 2) 0 [] 1 1
    (Core.makePlan (Sample.env true none) Sample.planner (Sample.pose "map" 1 1)
      (Sample.pose "map" 2 2) 0 []).state.costmap_.costmap_
    (by decide) (by decide) (by decide) rfl
  ⟨by decide, by decide, h.2.1 (by decide), h.1 2 2 (by decide) (by decide) (by decide)⟩

/-- Claim C9. In both translation units, on a planner whose `initialized_` is set, a
further `initialize`, through either overload and with any name, costmap and frame id,
only logs a warning: the planner it returns is the planner it was given, field for
field (frame id, costmap, calculator, expander and path maker, coordinate offset,
default tolerance and the rest). -/
theorem initialize_twice_is_noop (env : Core.Env) (s : Core.FollowPlanner)
    (env2 : Skeleton.Env) (s2 : Skeleton.FollowPlanner)
    (name : String) (costmap : Costmap2D) (frame_id : String) (costmap_ros : Costmap2DROS)
    (hinit : s.initialized_ = true) (hinit2 : s2.initialized_ = true) :
    (Core.initializeCostmap2D env s name costmap frame_id
        = (s, [Event.rosWarn Msg.alreadyInitialized]) ∧
      Core.initializeCostmap2DROS env s name costmap_ros
        = (s, [Event.rosWarn Msg.alreadyInitialized])) ∧
    (Skeleton.initializeCostmap2D env2 s2 name costmap frame_id
        = (s2, [Event.rosWarn Msg.alreadyInitialized]) ∧
      Skeleton.initializeCostmap2DROS env2 s2 name costmap_ros
        = (s2, [Event.rosWarn Msg.alreadyInitialized])) := by
  simp [Core.initializeCostmap2D, Core.initializeCostmap2DROS, Skeleton.initializeCostmap2D,
    Skeleton.initializeCostmap2DROS, hinit, hinit2]

/-- Claim C9 at sample planners: the first `initialize` sets `initialized_`; a second
one, with another name, another costmap and the frame `odom`, returns the planner the
first one produced. -/
theorem initialize_twice_is_noop_witness :
    (Core.initializeCostmap2D (Sample.env true none) Sample.fresh "planner" Sample.costmap
      "map").1.initialized_ = true ∧
    (Skeleton.initializeCostmap2D (Sample.skeletonEnv none)
      { Sample.skeletonPlanner with initialized_ := false } "planner" Sample.costmap
      "map").1.initialized_ = true ∧
    Core.initializeCostmap2D (Sample.env true none)
      (Core.initializeCostmap2D (Sample.env true none) Sample.fresh "planner" Sample.costmap
        "map").1 "other" { Sample.costmap with costmap_ := fun _ => 0 } "odom"
      = ((Core.initializeCostmap2D (Sample.env true none) Sample.fresh "planner" Sample.costmap
        "map").1, [Event.rosWarn Msg.alreadyInitialized]) :=
  ⟨by decide, by decide,
    (initialize_twice_is_noop (Sample.env true none)
      (Core.initializeCostmap2D (Sample.env true none) Sample.fresh "planner" Sample.costmap
        "map").1
      (Sample.skeletonEnv none)
      (Skeleton.initializeCostmap2D (Sample.skeletonEnv none)
        { Sample.skeletonPlanner with initialized_ := false } "planner" Sample.costmap "map").1
      "other" { Sample.costmap with costmap_ := fun _ => 0 } "odom"
      { costmap := Sample.costmap, global_frame := "odom" } (by decide) (by decide)).1.1⟩

/-- Claim C10. In both translation units the tolerance argument of the four-argument
`makePlan` does not reach the outcome: any two tolerances give the same flag, plan,
planner, grid and trace; and the three-argument `makePlan` gives the same flag, plan,
grid, potential array and trace for every value of `default_tolerance_`, the planners
it leaves differing in that member only. -/
theorem makePlan_ignores_tolerance (env : Core.Env) (s : Core.FollowPlanner)
    (env2 : Skeleton.Env) (s2 : Skeleton.FollowPlanner)
    (start goal : PoseStamped) (t1 t2 : ℚ) (plan : List PoseStamped) :
    (Core.makePlan env s start goal t1 plan = Core.makePlan env s start goal t2 plan ∧
      (Core.makePlanDefaultTolerance env { s with default_tolerance_ := t1 } start goal plan).ret
        = (Core.makePlanDefaultTolerance env { s with default_tolerance_ := t2 } start goal
            plan).ret ∧
      (Core.makePlanDefaultTolerance env { s with default_tolerance_ := t1 } start goal plan).plan
        = (Core.makePlanDefaultTolerance env { s with default_tolerance_ := t2 } start goal
            plan).plan ∧
      { (Core.makePlanDefaultTolerance env { s with default_tolerance_ := t1 } start goal
          plan).state with default_tolerance_ := t2 }
        = (Core.makePlanDefaultTolerance env { s with default_tolerance_ := t2 } start goal
            plan).state ∧
      (Core.makePlanDefaultTolerance env { s with default_tolerance_ := t1 } start goal
          plan).state.costmap_
        = (Core.makePlanDefaultTolerance env { s with default_tolerance_ := t2 } start goal
            plan).state.costmap_ ∧
      (Core.makePlanDefaultTolerance env { s with default_tolerance_ := t1 } start goal
          plan).potential
        = (Core.makePlanDefaultTolerance env { s with default_tolerance_ := t2 } start goal
            plan).potential ∧
      (Core.makePlanDefaultTolerance env { s with default_tolerance_ := t1 } start goal
          plan).trace
        = (Core.makePlanDefaultTolerance env { s with default_tolerance_ := t2 } start goal
            plan).trace) ∧
    (Skeleton.makePlan env2 s2 start goal t1 plan = Skeleton.makePlan env2 s2 start goal t2 plan ∧
      (Skeleton.makePlanDefaultTolerance env2 { s2 with default_tolerance_ := t1 } start goal
          plan).ret
        = (Skeleton.makePlanDefaultTolerance env2 { s2 with default_tolerance_ := t2 } start goal
            plan).ret ∧
      (Skeleton.makePlanDefaultTolerance env2 { s2 with default_tolerance_ := t1 } start goal
          plan).plan
        = (Skeleton.makePlanDefaultTolerance env2 { s2 with default_tolerance_ := t2 } start goal
            plan).plan ∧
      { (Skeleton.makePlanDefaultTolerance env2 { s2 with default_tolerance_ := t1 } start goal
          plan).state with default_tolerance_ := t2 }
        = (Skeleton.makePlanDefaultTolerance env2 { s2 with default_tolerance_ := t2 } start goal
            plan).state ∧
      (Skeleton.makePlanDefaultTolerance env2 { s2 with default_tolerance_ := t1 } start goal
          plan).trace
        = (Skeleton.makePlanDefaultTolerance env2 { s2 with default_tolerance_ := t2 } start goal
            plan).trace) := by
  refine ⟨⟨rfl, ?_⟩, ⟨rfl, ?_⟩⟩
  · simp only [Core.makePlanDefaultTolerance]
    by_cases hinit : s.initialized_ = true
    swap
    · simp [Core.makePlan, hinit]
    by_cases hg : env.resolve s.tf_prefix_ goal.header.frame_id
        = env.resolve s.tf_prefix_ s.frame_id_
    swap
    · simp [Core.makePlan, hinit, hg]
    by_cases hs : env.resolve s.tf_prefix_ start.header.frame_id
        = env.resolve s.tf_prefix_ s.frame_id_
    swap
    · simp [Core.makePlan, hinit, hg, hs]
    cases h1 : env.costmapWorldToMap s.costmap_.info start.pose.position.x
        start.pose.position.y with
    | none => simp [Core.makePlan, hinit, hg, hs, h1]
    | some si =>
      cases h2 : env.costmapWorldToMap s.costmap_.info goal.pose.position.x
          goal.pose.position.y with
      | none => simp [Core.makePlan, hinit, hg, hs, h1, h2]
      | some gi =>
        simp [Core.makePlan, hinit, hg, hs, h1, h2, Core.getPlanFromPotential,
          Core.publishPlan, clearRobotCell, Costmap2D.getSizeInCellsX,
          Costmap2D.getSizeInCellsY, Costmap2D.getCharMap]
  · simp only [Skeleton.makePlanDefaultTolerance]
    by_cases hinit : s2.initialized_ = true
    swap
    · simp [Skeleton.makePlan, hinit]
    by_cases hg : env2.resolve s2.tf_prefix_ goal.header.frame_id
        = env2.resolve s2.tf_prefix_ s2.frame_id_
    swap
    · simp [Skeleton.makePlan, hinit, hg]
    by_cases hs : env2.resolve s2.tf_prefix_ start.header.frame_id
        = env2.resolve s2.tf_prefix_ s2.frame_id_
    swap
    · simp [Skeleton.makePlan, hinit, hg, hs]
    simp [Skeleton.makePlan, hinit, hg, hs, Skeleton.getPlanFromPotential,
      Skeleton.publishPlan]

end follow_planner
